import Mathlib

/-!
Verification development for the transaction-authorization engine of the
`windsurf-project` backend (`app/services/virtual_card_service.py`,
`app/services/merchant_category_service.py`,
`app/services/transaction_validation_service.py`).

Conventions of the shallow embedding:
* Timestamps are integers: seconds since the Unix epoch 1970-01-01T00:00:00 UTC.
  Python `datetime` values in the source are always timezone-aware UTC, so this
  is faithful; `datetime.fromisoformat`/`.isoformat()` round-trips are modelled
  by carrying the integer timestamp directly.
* Python `Decimal`/`float`/`int` amounts are modelled as `Rat`.  Where the
  dynamic distinction between `Decimal` and `float` matters (the source raises
  `TypeError` when adding a `float` spend entry to a `Decimal` amount) the
  failure is modelled explicitly, see `PyErr` and `SpendVal`.
* Python dicts are association lists `List (String × α)` (insertion order
  preserved, as in CPython); `dict.get`, `in`, and item assignment are the
  helpers `lookupA`, `containsKeyA`, `setA`.
* `fastapi.HTTPException` declines are `AuthErr.decline detail`; any other
  Python exception escaping a modelled operation is `AuthErr.pyError`.
-/

deriving instance DecidableEq for Except

attribute [local semireducible] Rat.add Rat.mul Rat.inv Rat.sub

/-- Python exceptions other than `HTTPException` that the modelled code can
raise: `TypeError` (e.g. `float + Decimal`, subscripting a number),
`AttributeError` (e.g. `.get` on a number, `.lower()` on `None`) and
`decimal.InvalidOperation` (e.g. `Decimal(str(<dict>))`). -/
inductive PyErr where
  | typeError
  | attributeError
  | invalidOperation
  deriving DecidableEq, Repr

/-- Outcome classes at the authorization boundary: an `HTTPException` decline
carrying its `detail` string, or a non-HTTP Python exception. -/
inductive AuthErr where
  | decline (detail : String)
  | pyError (e : PyErr)
  deriving DecidableEq, Repr

/-- `CardStatus` enum from `app/models/virtual_card.py`. -/
inductive CardStatus where
  | active
  | frozen
  | cancelled
  | expired
  deriving DecidableEq, Repr

/-- The `.value` of a `CardStatus` member. -/
def CardStatus.value : CardStatus → String
  | .active => "active"
  | .frozen => "frozen"
  | .cancelled => "cancelled"
  | .expired => "expired"

/-- `SpendingLimitPeriod` enum from `app/models/virtual_card.py`. -/
inductive SpendingLimitPeriod where
  | daily
  | weekly
  | monthly
  | yearly
  | total
  deriving DecidableEq, Repr

/-- The `.value` of a `SpendingLimitPeriod` member. -/
def SpendingLimitPeriod.value : SpendingLimitPeriod → String
  | .daily => "daily"
  | .weekly => "weekly"
  | .monthly => "monthly"
  | .yearly => "yearly"
  | .total => "total"

/-- `SpendingLimitPeriod(period_str)`: enum construction from the string value,
`none` models the `ValueError` branch that the callers `continue` past. -/
def parsePeriod (s : String) : Option SpendingLimitPeriod :=
  if s = "daily" then some .daily
  else if s = "weekly" then some .weekly
  else if s = "monthly" then some .monthly
  else if s = "yearly" then some .yearly
  else if s = "total" then some .total
  else none

/-- Iteration order of `for period in SpendingLimitPeriod` (definition order). -/
def allPeriods : List SpendingLimitPeriod :=
  [.daily, .weekly, .monthly, .yearly, .total]

/- ### Calendar arithmetic (`datetime` behaviour on UTC instants)

Proleptic-Gregorian conversion between a day number (days since 1970-01-01)
and a civil date, used to model `datetime.replace(day=1, ...)` etc. -/

/-- Seconds in one day. -/
def secPerDay : ℤ := 86400

/-- `timedelta.days` of a difference of `delta` seconds: floor division,
matching Python's behaviour for negative differences as well. -/
def tdDays (delta : ℤ) : ℤ := Int.fdiv delta secPerDay

/-- Day number (days since 1970-01-01, floored) of a timestamp. -/
def dayOf (t : ℤ) : ℤ := Int.fdiv t secPerDay

/-- Civil date from a day number (proleptic Gregorian). -/
def civilFromDays (z : ℤ) : ℤ × ℤ × ℤ :=
  let z' := z + 719468
  let era := Int.fdiv z' 146097
  let doe := z' - era * 146097
  let yoe := Int.fdiv (doe - Int.fdiv doe 1460 + Int.fdiv doe 36524 - Int.fdiv doe 146096) 365
  let y := yoe + era * 400
  let doy := doe - (365 * yoe + Int.fdiv yoe 4 - Int.fdiv yoe 100)
  let mp := Int.fdiv (5 * doy + 2) 153
  let d := doy - Int.fdiv (153 * mp + 2) 5 + 1
  let m := mp + (if mp < 10 then 3 else -9)
  (if m ≤ 2 then y + 1 else y, m, d)

/-- Day number of a civil date (proleptic Gregorian). -/
def daysFromCivil (y m d : ℤ) : ℤ :=
  let y' := if m ≤ 2 then y - 1 else y
  let era := Int.fdiv y' 400
  let yoe := y' - era * 400
  let mp := Int.emod (m + 9) 12
  let doy := Int.fdiv (153 * mp + 2) 5 + d - 1
  let doe := yoe * 365 + Int.fdiv yoe 4 - Int.fdiv yoe 100 + doy
  era * 146097 + doe - 719468

/-- `datetime.weekday()` of a timestamp: Monday = 0; 1970-01-01 was a Thursday. -/
def weekdayOf (t : ℤ) : ℤ := Int.emod (dayOf t + 3) 7

/-- Timestamp of `"2000-01-01T00:00:00+00:00"`, the default `last_reset`. -/
def t2000 : ℤ := secPerDay * daysFromCivil 2000 1 1

/-- Timestamp of `datetime.min` (year 1, Jan 1) with UTC attached. -/
def tMin : ℤ := secPerDay * daysFromCivil 1 1 1

namespace VirtualCardService

/-- `VirtualCardService._is_limit_period_expired(last_reset, period)` with the
wall clock `datetime.now(timezone.utc)` passed explicitly as `now`.  The
source tests the **elapsed duration** `(now - last_reset).days` against fixed
day counts (1, 7, 30 — "Approximate month as 30 days" — and 365);
`TOTAL` never expires. -/
def isLimitPeriodExpired (lastReset : ℤ) (now : ℤ) (period : SpendingLimitPeriod) : Bool :=
  match period with
  | .daily => 1 ≤ tdDays (now - lastReset)
  | .weekly => 7 ≤ tdDays (now - lastReset)
  | .monthly => 30 ≤ tdDays (now - lastReset)
  | .yearly => 365 ≤ tdDays (now - lastReset)
  | .total => false

/-- `VirtualCardService._get_period_start(period)` with the wall clock passed
explicitly: daily → midnight UTC of the current day; weekly → midnight of the
most recent Monday; monthly → midnight of the first of the current month;
yearly → midnight of Jan 1; `TOTAL` → `datetime.min`. -/
def getPeriodStart (period : SpendingLimitPeriod) (now : ℤ) : ℤ :=
  match period with
  | .daily => secPerDay * dayOf now
  | .weekly => secPerDay * (dayOf now - weekdayOf now)
  | .monthly =>
    let ymd := civilFromDays (dayOf now)
    secPerDay * daysFromCivil ymd.1 ymd.2.1 1
  | .yearly =>
    let ymd := civilFromDays (dayOf now)
    secPerDay * daysFromCivil ymd.1 1 1
  | .total => tMin

end VirtualCardService

/-- Modelled from the spec (§4.1 PeriodClock), for comparison with the code:
`period_start(period, now)` — Daily → `now` truncated to midnight UTC; Weekly
→ most recent Monday at midnight UTC; Monthly → first of current month;
Yearly → Jan 1; Total → the epoch. -/
def specPeriodStart (period : SpendingLimitPeriod) (now : ℤ) : ℤ :=
  match period with
  | .daily => secPerDay * dayOf now
  | .weekly => secPerDay * (dayOf now - weekdayOf now)
  | .monthly =>
    let ymd := civilFromDays (dayOf now)
    secPerDay * daysFromCivil ymd.1 ymd.2.1 1
  | .yearly =>
    let ymd := civilFromDays (dayOf now)
    secPerDay * daysFromCivil ymd.1 1 1
  | .total => 0

/-- Elapsed-seconds threshold after which the source considers a period
expired: 1, 7, 30 and 365 days respectively. -/
def expiryThresholdSecs : SpendingLimitPeriod → ℤ
  | .daily => 86400
  | .weekly => 7 * 86400
  | .monthly => 30 * 86400
  | .yearly => 365 * 86400
  | .total => 0

example : tdDays 39600 = 0 := by decide
example : tdDays 86400 = 1 := by decide
example : t2000 = 946684800 := by decide
example : VirtualCardService.getPeriodStart .daily 122400 = 86400 := by decide
example : VirtualCardService.isLimitPeriodExpired 82800 122400 .daily = false := by decide
example : specPeriodStart .daily 122400 = 86400 := by decide

/- ### Association-list model of Python dicts -/

/-- `d.get(k)` / `d.get(k, default)` via `Option`. -/
def lookupA {α : Type} (l : List (String × α)) (k : String) : Option α :=
  (l.find? (fun kv => kv.1 = k)).map (fun kv => kv.2)

/-- `k in d` for a dict. -/
def containsKeyA {α : Type} (l : List (String × α)) (k : String) : Bool :=
  (lookupA l k).isSome

/-- `d[k] = v`: replace in place if the key exists (CPython keeps its
position), else append. -/
def setA {α : Type} : List (String × α) → String → α → List (String × α)
  | [], k, v => [(k, v)]
  | (k', v') :: t, k, v =>
    if k' = k then (k, v) :: t else (k', v') :: setA t k v

/-- A JSON value stored under a period key of a spend dict
(`current_spend`, `category_current_spend`, ...).  `num` is a bare JSON
number (stored as a Python `float`); `rec` is the nested
`{"amount": <float>, "last_reset": <iso string>}` record that
`update_spend` writes (the amount it writes is always `float(...)` and the
`last_reset` string is the `isoformat` of the timestamp, carried here as the
timestamp itself). -/
inductive SpendVal where
  | num (x : ℚ)
  | record (amount : ℚ) (lastReset : ℤ)
  deriving DecidableEq, Repr

/-- `Decimal(str(v))` on a stored spend value: parses a bare number, raises
`decimal.InvalidOperation` when `v` is the nested dict (its `str` is
`"{'amount': ...}"`). -/
def decimalOfSpendVal : SpendVal → Except AuthErr ℚ
  | .num x => .ok x
  | .record _ _ => .error (.pyError .invalidOperation)

namespace VirtualCardService

/-- `VirtualCardService._validate_spend_against_limit(current_spend,
spending_limits, amount, period)`.  `limit = Decimal(str(spending_limits.get(
period.value, 0)))`; non-positive limits pass immediately.  Then
`period_spend = current_spend.get(period.value, {}).get("amount",
Decimal("0"))`: if the stored entry is a bare number, `.get` on it raises
`AttributeError`; if it is the nested record, the stored amount is a `float`
(that is what `update_spend` writes) and `period_spend + amount` — a `float`
plus the `Decimal` argument — raises `TypeError`.  Only an absent entry
yields `Decimal("0")` and a completed comparison. -/
def validateSpendAgainstLimit (currentSpend : List (String × SpendVal))
    (spendingLimits : List (String × ℚ)) (amount : ℚ)
    (period : SpendingLimitPeriod) : Except AuthErr (Bool × String) :=
  let limit := (lookupA spendingLimits period.value).getD 0
  if limit ≤ 0 then .ok (true, "")
  else
    match lookupA currentSpend period.value with
    | some (.num _) => .error (.pyError .attributeError)
    | some (.record _ _) => .error (.pyError .typeError)
    | none =>
      if 0 + amount > limit then
        .ok (false, "Transaction would exceed " ++ period.value ++
          " spending limit of " ++ toString limit)
      else .ok (true, "")

/-- One iteration of a `for period in SpendingLimitPeriod:` loop that calls
`_validate_spend_against_limit` and raises `HTTPException(400, prefix +
error_msg)` on a failed check. -/
def checkPeriodLimits (currentSpend : List (String × SpendVal))
    (spendingLimits : List (String × ℚ)) (amount : ℚ) (pfx : String) :
    List SpendingLimitPeriod → Except AuthErr Unit
  | [] => .ok ()
  | p :: ps => do
    let r ← validateSpendAgainstLimit currentSpend spendingLimits amount p
    if r.1 then checkPeriodLimits currentSpend spendingLimits amount pfx ps
    else .error (.decline (pfx ++ r.2))

/-- One iteration of the final spending-limit loop of `validate_transaction`
(lines 280–300): parse the period key (a `ValueError` is skipped), read
`period_spend = Decimal(str(current_spend.get(period_str, 0)))` and
`last_reset = datetime.fromisoformat(last_spend_reset.get(period_str,
"2000-01-01T00:00:00+00:00"))`, zero the spend if the period expired, and
decline if `period_spend + amount > Decimal(str(limit))`. -/
def checkOnePeriod (now : ℤ) (currentSpend : List (String × SpendVal))
    (lastSpendReset : List (String × ℤ)) (amount : ℚ)
    (entry : String × ℚ) : Except AuthErr Unit :=
  match parsePeriod entry.1 with
  | none => .ok ()
  | some period => do
    let periodSpend ← decimalOfSpendVal ((lookupA currentSpend entry.1).getD (.num 0))
    let lastReset := (lookupA lastSpendReset entry.1).getD t2000
    let periodSpend := if isLimitPeriodExpired lastReset now period then 0 else periodSpend
    if periodSpend + amount > entry.2 then
      .error (.decline ("Transaction would exceed " ++ period.value ++ " spending limit"))
    else .ok ()

/-- The final spending-limit loop of `validate_transaction` over
`card.spending_limits.items()`. -/
def checkSpendingLimits (now : ℤ) (currentSpend : List (String × SpendVal))
    (lastSpendReset : List (String × ℤ)) (amount : ℚ) :
    List (String × ℚ) → Except AuthErr Unit
  | [] => .ok ()
  | entry :: rest => do
    checkOnePeriod now currentSpend lastSpendReset amount entry
    checkSpendingLimits now currentSpend lastSpendReset amount rest

/-- One iteration of the reset-then-add loop of `update_spend` (overall,
category and subcategory loops all share this shape): parse the period key
(`ValueError` is skipped), read the nested period record with default
`{"amount": "0", "last_reset": "2000-01-01T00:00:00+00:00"}` — subscripting a
bare number raises `TypeError` — zero the amount and move `last_reset` to
`_get_period_start(period)` if the period expired, then store
`{"amount": float(period_spend + amount), "last_reset":
last_reset.isoformat()}`. -/
def updateOnePeriodSpend (now : ℤ) (amount : ℚ)
    (spend : List (String × SpendVal)) (periodStr : String) :
    Except AuthErr (List (String × SpendVal)) :=
  match parsePeriod periodStr with
  | none => .ok spend
  | some period =>
    match lookupA spend periodStr with
    | some (.num _) => .error (.pyError .typeError)
    | some (.record a t) =>
      let pair := if isLimitPeriodExpired t now period then
          ((0 : ℚ), getPeriodStart period now)
        else (a, t)
      .ok (setA spend periodStr (.record (pair.1 + amount) pair.2))
    | none =>
      let pair := if isLimitPeriodExpired t2000 now period then
          ((0 : ℚ), getPeriodStart period now)
        else ((0 : ℚ), t2000)
      .ok (setA spend periodStr (.record (pair.1 + amount) pair.2))

/-- The reset-then-add loop of `update_spend` over the keys of a
spending-limits dict, threading the mutated spend dict. -/
def updateSpendLoop (now : ℤ) (amount : ℚ) :
    List (String × SpendVal) → List String → Except AuthErr (List (String × SpendVal))
  | spend, [] => .ok spend
  | spend, k :: ks => do
    let spend' ← updateOnePeriodSpend now amount spend k
    updateSpendLoop now amount spend' ks

end VirtualCardService

/- ### Merchant category data model and classifier
(`app/models/merchant_category.py`, `app/services/merchant_category_service.py`) -/

/-- The fields of the `MerchantCategory` ORM entity that the engine reads
(identity/tree bookkeeping columns are omitted).  `typicalAmountRange` is the
JSON dict `{"min": ..., "max": ...}`: `none` models an absent or empty (falsy)
dict, and each bound is an `Option` because `.get` can miss. -/
structure MerchantCategory where
  code : String
  name : String
  mccCodes : List String
  keywords : List String
  similarWords : List String
  excludedWords : List String
  typicalAmountRange : Option (Option ℚ × Option ℚ)
  commonPaymentMethods : List String
  restrictedJurisdictions : List String
  isHighRisk : Bool
  requiresAdditionalVerification : Bool
  amlRiskLevel : String
  deriving DecidableEq, Repr

/-- Python truthiness of an `Optional[str]`: `None` and `""` are falsy. -/
def truthyS (s : Option String) : Bool :=
  match s with
  | none => false
  | some str => str ≠ ""

/-- Python truthiness of an optional number: `None` and `0` are falsy. -/
def truthyQ (q : Option ℚ) : Bool :=
  match q with
  | none => false
  | some x => x ≠ 0

/-- f-string interpolation of an `Optional[str]`: `None` renders as `"None"`. -/
def pyStr (s : Option String) : String := s.getD "None"

/-- Python whitespace as matched by `\s` / `str.split()` (ASCII range). -/
def isPySpace (c : Char) : Bool :=
  c = ' ' || c = '\t' || c = '\n' || c = '\r' || c = '\x0b' || c = '\x0c'

/-- `str.lower()` (ASCII case; the merchant data in the repository is ASCII). -/
def pyLowerChar (c : Char) : Char :=
  if 'A' ≤ c && c ≤ 'Z' then Char.ofNat (c.toNat + 32) else c

/-- `str.split()` on a character list: split on whitespace runs, drop empties. -/
def pySplitGo : List Char → List Char → List (List Char)
  | [], cur => if cur.isEmpty then [] else [cur.reverse]
  | c :: rest, cur =>
    if isPySpace c then
      if cur.isEmpty then pySplitGo rest [] else cur.reverse :: pySplitGo rest []
    else pySplitGo rest (c :: cur)

namespace MerchantCategoryService

/-- `MerchantCategoryService._normalize_text`: lowercase, drop characters
outside `[a-z0-9\s]`, collapse whitespace runs to single spaces. -/
def normalizeText (s : String) : String :=
  let lowered := s.toList.map pyLowerChar
  let filtered := lowered.filter
    (fun c => ('a' ≤ c && c ≤ 'z') || ('0' ≤ c && c ≤ '9') || isPySpace c)
  String.mk (List.intercalate [' '] (pySplitGo filtered []))

/-- `MerchantCategoryService._calculate_similarity`: `fuzz.ratio` (the
external `fuzzywuzzy` collaborator, passed in as `fuzzFn`, returning an
integer in `[0, 100]`) over the two normalized texts. -/
def calculateSimilarity (fuzzFn : String → String → ℕ) (t1 t2 : String) : ℕ :=
  fuzzFn (normalizeText t1) (normalizeText t2)

/-- `MerchantCategoryService.get_category_by_mcc`: first category (database
iteration order = list order) whose `mcc_codes` array contains the code. -/
def getCategoryByMcc (categories : List MerchantCategory) (mcc : String) :
    Option MerchantCategory :=
  categories.find? (fun c => c.mccCodes.contains mcc)

/-- Whether `pat` occurs at the start of `text`. -/
def listStartsWith : List Char → List Char → Bool
  | [], _ => true
  | _ :: _, [] => false
  | p :: ps, t :: ts => p = t && listStartsWith ps ts

/-- Whether `pat` occurs contiguously anywhere in `text`. -/
def listOccursIn (pat : List Char) : List Char → Bool
  | [] => listStartsWith pat []
  | t :: ts => listStartsWith pat (t :: ts) || listOccursIn pat ts

/-- Python `word in search_text`: substring containment. -/
def containsSub (searchText word : String) : Bool :=
  listOccursIn word.toList searchText.toList

/-- The `search_text` preparation of `map_merchant_to_category` (lines 77–81):
`search_text = merchant_name`, appended with the description via an f-string
when the description is truthy, then `_normalize_text(search_text)` — which
raises `AttributeError` (`None.lower()`) when both name and description are
absent, and renders a `None` name as `"None"` inside the f-string otherwise. -/
def searchTextOf (merchantName merchantDescription : Option String) :
    Except AuthErr String :=
  if truthyS merchantDescription then
    .ok (normalizeText (pyStr merchantName ++ " " ++ merchantDescription.getD ""))
  else
    match merchantName with
    | none => .error (.pyError .attributeError)
    | some n => .ok (normalizeText n)

/-- The per-category body of the scoring loop of `map_merchant_to_category`
(lines 90–129).  Returns `none` when the category is disqualified (`continue`:
an excluded word occurs in the search text, or the country is in the
category's restricted jurisdictions), otherwise the composite score:
best keyword similarity × 0.4, ±amount-range adjustment, +20 payment-method
match, +20 geographic fit. -/
def scoreCategory (fuzzFn : String → String → ℕ) (searchText : String)
    (transactionAmount : Option ℚ) (paymentMethod countryCode : Option String)
    (c : MerchantCategory) : Option ℚ :=
  let maxKeywordScore : ℚ :=
    (c.keywords.map (fun k => ((calculateSimilarity fuzzFn k searchText : ℤ) : ℚ))).foldl max 0
  let score : ℚ := maxKeywordScore * (2 / 5)
  if c.excludedWords.any (fun w => containsSub searchText w) then none
  else
    let score :=
      if truthyQ transactionAmount && c.typicalAmountRange.isSome then
        let range := c.typicalAmountRange.getD (none, none)
        let amt := transactionAmount.getD 0
        if truthyQ range.1 && truthyQ range.2 then
          let minA := range.1.getD 0
          let maxA := range.2.getD 0
          if minA ≤ amt && amt ≤ maxA then score + 20
          else if amt < minA * (1 / 2) || amt > maxA * 2 then score - 10
          else score
        else score
      else score
    let score :=
      if truthyS paymentMethod && !c.commonPaymentMethods.isEmpty then
        if c.commonPaymentMethods.contains (paymentMethod.getD "") then score + 20
        else score
      else score
    if truthyS countryCode && !c.restrictedJurisdictions.isEmpty then
      if c.restrictedJurisdictions.contains (countryCode.getD "") then none
      else some (score + 20)
    else some score

/-- The best-match fold of `map_merchant_to_category` (lines 87–134): track
`(best_match, best_score)`, updating only on a strictly greater score. -/
def scoreLoop (fuzzFn : String → String → ℕ) (searchText : String)
    (transactionAmount : Option ℚ) (paymentMethod countryCode : Option String) :
    List MerchantCategory → Option MerchantCategory × ℚ → Option MerchantCategory × ℚ
  | [], acc => acc
  | c :: rest, acc =>
    match scoreCategory fuzzFn searchText transactionAmount paymentMethod countryCode c with
    | none =>
      scoreLoop fuzzFn searchText transactionAmount paymentMethod countryCode rest acc
    | some score =>
      scoreLoop fuzzFn searchText transactionAmount paymentMethod countryCode rest
        (if score > acc.2 then (some c, score) else acc)

/-- `MerchantCategoryService.map_merchant_to_category`: MCC lookup first
(returning immediately on a hit), otherwise normalize the merchant text and
run the weighted scoring loop, requiring a best score of at least 40. -/
def mapMerchantToCategory (fuzzFn : String → String → ℕ)
    (categories : List MerchantCategory) (merchantName : Option String)
    (merchantDescription : Option String) (mcc : Option String)
    (transactionAmount : Option ℚ) (paymentMethod : Option String)
    (countryCode : Option String) : Except AuthErr (Option MerchantCategory) :=
  let fallThrough : Except AuthErr (Option MerchantCategory) := do
    let searchText ← searchTextOf merchantName merchantDescription
    let acc := scoreLoop fuzzFn searchText transactionAmount paymentMethod countryCode
      categories (none, 0)
    .ok (if acc.2 ≥ 40 then acc.1 else none)
  if truthyS mcc then
    match getCategoryByMcc categories (mcc.getD "") with
    | some c => .ok (some c)
    | none => fallThrough
  else fallThrough

/-- Result dict of `MerchantCategoryService.validate_category_rules`. -/
structure CategoryRulesResult where
  allowed : Bool
  warnings : List String
  restrictions : List String
  requiredActions : List String
  deriving DecidableEq, Repr

/-- `MerchantCategoryService.validate_category_rules(category, amount,
payment_method, country_code)`: warnings for atypical amounts and payment
methods, a hard `allowed = False` plus restriction only for a restricted
jurisdiction, and advisory flags for high-risk / verification / AML. -/
def validateCategoryRules (category : MerchantCategory) (amount : ℚ)
    (paymentMethod : String) (countryCode : String) : CategoryRulesResult :=
  let warnings : List String := []
  let warnings := warnings ++
    (if category.typicalAmountRange.isSome then
      let range := category.typicalAmountRange.getD (none, none)
      (if truthyQ range.1 && amount < range.1.getD 0 then
        ["Amount below typical minimum for this category ($" ++ toString (range.1.getD 0) ++ ")"]
      else []) ++
      (if truthyQ range.2 && amount > range.2.getD 0 then
        ["Amount above typical maximum for this category ($" ++ toString (range.2.getD 0) ++ ")"]
      else [])
    else [])
  let warnings := warnings ++
    (if !category.commonPaymentMethods.isEmpty
        && !category.commonPaymentMethods.contains paymentMethod then
      ["Unusual payment method for this category"]
    else [])
  let restricted := !category.restrictedJurisdictions.isEmpty
    && category.restrictedJurisdictions.contains countryCode
  let restrictions := if restricted then ["Category restricted in " ++ countryCode] else []
  let warnings := warnings ++ (if category.isHighRisk then ["High-risk merchant category"] else [])
  let requiredActions :=
    if category.requiresAdditionalVerification then ["Additional verification required"] else []
  let warnings := warnings ++ (if category.amlRiskLevel = "high" then ["High AML risk category"] else [])
  let requiredActions := requiredActions ++
    (if category.amlRiskLevel = "high" then ["Enhanced due diligence required"] else [])
  { allowed := !restricted
    warnings := warnings
    restrictions := restrictions
    requiredActions := requiredActions }

end MerchantCategoryService

/- ### Virtual card state and the authorization entry point
(`app/models/virtual_card.py`, `app/services/virtual_card_service.py`) -/

/-- Python `x or default` for an optional/possibly-empty string. -/
def pyOrS (o : Option String) (d : String) : String :=
  if truthyS o then o.getD "" else d

/-- The fields of the `VirtualCard` ORM entity that `validate_transaction`
and `update_spend` read or write (identity, card-number and lifecycle
columns are omitted).  JSON dict columns are association lists; the nested
per-category dicts mirror the JSON shape documented in the model. -/
structure VirtualCard where
  status : CardStatus
  balance : ℚ
  spendingLimits : List (String × ℚ)
  currentSpend : List (String × SpendVal)
  lastSpendReset : List (String × ℤ)
  categorySpendingLimits : List (String × List (String × ℚ))
  categoryCurrentSpend : List (String × List (String × SpendVal))
  subcategorySpendingLimits : List (String × List (String × ℚ))
  subcategoryCurrentSpend : List (String × List (String × SpendVal))
  categoryTransactionCounts : List (String × ℤ)
  subcategoryTransactionCounts : List (String × ℤ)
  allowedMerchantCategories : List String
  blockedMerchantCategories : List String
  allowedMerchants : List String
  blockedMerchants : List String
  allowedCountries : List String
  blockedCountries : List String
  allowOnlineTransactions : Bool
  allowContactlessTransactions : Bool
  allowCashWithdrawals : Bool
  allowInternationalTransactions : Bool
  lastTransactionAt : Option ℤ
  failedTransactionCount : ℤ
  totalTransactionCount : ℤ
  totalSpend : ℚ
  deriving DecidableEq, Repr

namespace VirtualCardService

open MerchantCategoryService in
/-- `VirtualCardService.validate_transaction`, with the wall clock, the
category table (the database rows read by the classifier) and the external
`fuzz.ratio` collaborator passed explicitly.  The body follows the source
order: status gate, balance gate, the `_validate_spend_against_limit` loop
over all periods, first classification with category/subcategory limit
loops, transaction-type flags (online, contactless, cash), second
classification with category rules and category allow/block lists, the
international flag, merchant / merchant-category / country allow-block
lists, and the final spending-limit loop with expiry reset.  `.ok ()` models
the `return True`; declines are the raised `HTTPException`s and `pyError`
any other exception the interpreter would raise. -/
def validateTransaction (fuzzFn : String → String → ℕ)
    (categories : List MerchantCategory) (now : ℤ) (card : VirtualCard)
    (amount : ℚ) (merchantId merchantCategory merchantName merchantDescription
    countryCode : Option String) (isOnline isContactless isCashWithdrawal
    isInternational : Bool) (paymentMethod : Option String) :
    Except AuthErr Unit := do
  if card.status ≠ .active then
    .error (.decline ("Card is " ++ card.status.value))
  else if card.balance < amount then
    .error (.decline "Insufficient funds")
  else do
    checkPeriodLimits card.currentSpend card.spendingLimits amount "" allPeriods
    let mapped ← mapMerchantToCategory fuzzFn categories merchantName
      merchantDescription merchantCategory (some amount) paymentMethod countryCode
    match mapped with
    | some mc => do
      let categoryCode := (mc.code.splitOn ".").headD ""
      if containsKeyA card.categorySpendingLimits categoryCode then
        checkPeriodLimits ((lookupA card.categoryCurrentSpend categoryCode).getD [])
          ((lookupA card.categorySpendingLimits categoryCode).getD []) amount
          ("Category " ++ mc.name ++ ": ") allPeriods
      else .ok ()
      if containsKeyA card.subcategorySpendingLimits mc.code then
        checkPeriodLimits ((lookupA card.subcategoryCurrentSpend mc.code).getD [])
          ((lookupA card.subcategorySpendingLimits mc.code).getD []) amount
          ("Subcategory " ++ mc.name ++ ": ") allPeriods
      else .ok ()
    | none => .ok ()
    if isOnline && !card.allowOnlineTransactions then
      .error (.decline "Online transactions not allowed")
    else if isContactless && !card.allowContactlessTransactions then
      .error (.decline "Contactless transactions not allowed")
    else if isCashWithdrawal && !card.allowCashWithdrawals then
      .error (.decline "Cash withdrawals not allowed")
    else do
    let mapped2 ← mapMerchantToCategory fuzzFn categories merchantName
      merchantDescription merchantCategory (some amount) paymentMethod countryCode
    match mapped2 with
    | some mc => do
      let rules := validateCategoryRules mc amount
        (if !isOnline then pyOrS paymentMethod "card_present" else "online")
        (pyOrS countryCode "US")
      if !rules.allowed then
        .error (.decline ("Transaction restricted: " ++
          String.intercalate ", " rules.restrictions))
      else if !card.allowedMerchantCategories.isEmpty
          && !card.allowedMerchantCategories.contains mc.code then
        .error (.decline ("Merchant category " ++ mc.name ++ " not allowed"))
      else if !card.blockedMerchantCategories.isEmpty
          && card.blockedMerchantCategories.contains mc.code then
        .error (.decline ("Merchant category " ++ mc.name ++ " is blocked"))
      else .ok ()
    | none => .ok ()
    if isInternational && !card.allowInternationalTransactions then
      .error (.decline "International transactions not allowed")
    else do
    if truthyS merchantId then
      if !card.blockedMerchants.isEmpty
          && card.blockedMerchants.contains (merchantId.getD "") then
        .error (.decline "Merchant is blocked")
      else if !card.allowedMerchants.isEmpty
          && !card.allowedMerchants.contains (merchantId.getD "") then
        .error (.decline "Merchant is not in allowed list")
      else .ok ()
    else .ok ()
    if truthyS merchantCategory then
      if !card.blockedMerchantCategories.isEmpty
          && card.blockedMerchantCategories.contains (merchantCategory.getD "") then
        .error (.decline "Merchant category is blocked")
      else if !card.allowedMerchantCategories.isEmpty
          && !card.allowedMerchantCategories.contains (merchantCategory.getD "") then
        .error (.decline "Merchant category is not in allowed list")
      else .ok ()
    else .ok ()
    if truthyS countryCode then
      if !card.blockedCountries.isEmpty
          && card.blockedCountries.contains (countryCode.getD "") then
        .error (.decline "Country is blocked")
      else if !card.allowedCountries.isEmpty
          && !card.allowedCountries.contains (countryCode.getD "") then
        .error (.decline "Country is not in allowed list")
      else .ok ()
    else .ok ()
    if !card.spendingLimits.isEmpty then
      checkSpendingLimits now card.currentSpend card.lastSpendReset amount
        card.spendingLimits
    else .ok ()

/-- `VirtualCardService.update_spend`, with the wall clock passed explicitly.
On `success = False` only the failure counter and `last_transaction_at` move;
on success the overall reset-then-add loop runs over the configured
spending-limit keys, and — when a merchant category is given — so do the
category loop (keyed by the root segment of the category code, with its
transaction count) and the subcategory loop (keyed by the full code).  The
returned card is the `virtual_card.update(...)` result: the snapshot with
`update_data` applied. -/
def updateSpend (now : ℤ) (card : VirtualCard) (amount : ℚ)
    (merchantCategory : Option String) (success : Bool) :
    Except AuthErr VirtualCard := do
  let base := { card with
    totalSpend := if success then card.totalSpend + amount else card.totalSpend
    totalTransactionCount := card.totalTransactionCount + (if success then 1 else 0)
    failedTransactionCount := card.failedTransactionCount + (if success then 0 else 1)
    lastTransactionAt := some now }
  if !success then
    .ok base
  else do
    let currentSpend ←
      if !card.spendingLimits.isEmpty then
        updateSpendLoop now amount card.currentSpend (card.spendingLimits.map (fun e => e.1))
      else .ok card.currentSpend
    let base := { base with currentSpend := currentSpend }
    if truthyS merchantCategory then do
      let category := ((merchantCategory.getD "").splitOn ".").headD ""
      let base ←
        if containsKeyA card.categorySpendingLimits category then do
          let categorySpend ← updateSpendLoop now amount
            ((lookupA card.categoryCurrentSpend category).getD [])
            (((lookupA card.categorySpendingLimits category).getD []).map (fun e => e.1))
          .ok { base with
            categoryCurrentSpend := setA card.categoryCurrentSpend category categorySpend
            categoryTransactionCounts := setA card.categoryTransactionCounts category
              ((lookupA card.categoryTransactionCounts category).getD 0 + 1) }
        else .ok base
      if containsKeyA card.subcategorySpendingLimits (merchantCategory.getD "") then do
        let subcategorySpend ← updateSpendLoop now amount
          ((lookupA card.subcategoryCurrentSpend (merchantCategory.getD "")).getD [])
          (((lookupA card.subcategorySpendingLimits (merchantCategory.getD "")).getD []).map
            (fun e => e.1))
        .ok { base with
          subcategoryCurrentSpend := setA card.subcategoryCurrentSpend
            (merchantCategory.getD "") subcategorySpend
          subcategoryTransactionCounts := setA card.subcategoryTransactionCounts
            (merchantCategory.getD "")
            ((lookupA card.subcategoryTransactionCounts (merchantCategory.getD "")).getD 0 + 1) }
      else .ok base
    else .ok base

end VirtualCardService

/- ### Risk-rule aggregation
(`app/services/transaction_validation_service.py`) -/

/-- `RiskLevel` enum used by `_calculate_risk_level`. -/
inductive RiskLevel where
  | low
  | medium
  | high
  | critical
  deriving DecidableEq, Repr

namespace TransactionValidationService

/-- The result dict a rule's `validation_fn` returns when it does not raise:
`{"valid": ..., "risk_factors": [...], "requires_review": ...}` (the two
optional keys read through `.get(..., default)`). -/
structure Verdict where
  valid : Bool
  riskFactors : List String
  requiresReview : Bool
  deriving DecidableEq, Repr

/-- The outcome of `await rule.validation_fn(...)` on the given transaction:
either a verdict dict or a raised exception (caught by the aggregation
loop). -/
inductive RuleOutcome where
  | ok (v : Verdict)
  | raises (msg : String)
  deriving DecidableEq, Repr

/-- A registered `ValidationRule` together with the outcome its
`validation_fn` produces on the transaction under consideration (the shallow
embedding of the rule pipeline: each `validation_fn` queries the database and
context, which are fixed for one call, so a rule contributes exactly one
`RuleOutcome` per run). -/
structure VRule where
  name : String
  riskScore : ℤ
  outcome : RuleOutcome
  deriving DecidableEq, Repr

/-- An entry of the returned `validation_results` dict: the verdict dict, or
the `{"valid": False, "error": ..., "requires_review": True}` record written
by the `except` handler. -/
inductive ResultEntry where
  | result (v : Verdict)
  | errorEntry (msg : String)
  deriving DecidableEq, Repr

/-- Accumulator of the `for rule in self.rules.values()` loop. -/
structure AggState where
  validationResults : List (String × ResultEntry)
  totalRiskScore : ℤ
  riskFactors : List String
  requiresReview : Bool
  deriving DecidableEq, Repr

/-- The aggregation loop of `TransactionValidationService.validate_transaction`
(lines 108–129): on a normal verdict, an invalid one adds the rule's weight
to the score, appends its risk factors and may set the review flag; on a
raised exception the rule is recorded as an error entry and the review flag
is forced, with no score contribution. -/
def runRules : List VRule → AggState → AggState
  | [], st => st
  | r :: rest, st =>
    match r.outcome with
    | .ok v =>
      let st := { st with validationResults := setA st.validationResults r.name (.result v) }
      let st :=
        if !v.valid then
          { st with
            totalRiskScore := st.totalRiskScore + r.riskScore
            riskFactors := st.riskFactors ++ v.riskFactors
            requiresReview := st.requiresReview || v.requiresReview }
        else st
      runRules rest st
    | .raises msg =>
      runRules rest { st with
        validationResults := setA st.validationResults r.name (.errorEntry msg)
        requiresReview := true }

/-- `TransactionValidationService._calculate_risk_level`. -/
def calculateRiskLevel (riskScore : ℤ) : RiskLevel :=
  if riskScore < 30 then .low
  else if riskScore < 50 then .medium
  else if riskScore < 70 then .high
  else .critical

/-- The dict returned by `validate_transaction`. -/
structure ValidationOutcome where
  valid : Bool
  riskScore : ℤ
  riskLevel : RiskLevel
  riskFactors : List String
  requiresReview : Bool
  validationResults : List (String × ResultEntry)
  deriving DecidableEq, Repr

/-- `TransactionValidationService.validate_transaction`, shallowly embedded
over the per-rule outcomes of this run: the aggregation loop followed by the
final risk level and the `valid` flag `total_risk_score < 70 and not
requires_review`. -/
def validateTransaction (rules : List VRule) : ValidationOutcome :=
  let st := runRules rules ⟨[], 0, [], false⟩
  { valid := st.totalRiskScore < 70 && !st.requiresReview
    riskScore := st.totalRiskScore
    riskLevel := calculateRiskLevel st.totalRiskScore
    riskFactors := st.riskFactors
    requiresReview := st.requiresReview
    validationResults := st.validationResults }

/-- Whether a rule's outcome sets the aggregate review flag: it raised, or it
returned an invalid verdict requesting review (a *valid* verdict requesting
review is ignored by the loop). -/
def forcesReview (r : VRule) : Bool :=
  match r.outcome with
  | .ok v => !v.valid && v.requiresReview
  | .raises _ => true

/-- The weight a rule's outcome adds to the aggregate risk score. -/
def scoreContribution (r : VRule) : ℤ :=
  match r.outcome with
  | .ok v => if !v.valid then r.riskScore else 0
  | .raises _ => 0

/-- The risk factors a rule's outcome appends to the aggregate list. -/
def factorContribution (r : VRule) : List String :=
  match r.outcome with
  | .ok v => if !v.valid then v.riskFactors else []
  | .raises _ => []

end TransactionValidationService

/- ### Concrete fixtures used to evaluate the embedded code -/

/-- A card with no controls configured: active, funded, no limits, no
recorded spend, all transaction types allowed, empty allow/block lists. -/
def baseCard : VirtualCard where
  status := .active
  balance := 1000
  spendingLimits := []
  currentSpend := []
  lastSpendReset := []
  categorySpendingLimits := []
  categoryCurrentSpend := []
  subcategorySpendingLimits := []
  subcategoryCurrentSpend := []
  categoryTransactionCounts := []
  subcategoryTransactionCounts := []
  allowedMerchantCategories := []
  blockedMerchantCategories := []
  allowedMerchants := []
  blockedMerchants := []
  allowedCountries := []
  blockedCountries := []
  allowOnlineTransactions := true
  allowContactlessTransactions := true
  allowCashWithdrawals := true
  allowInternationalTransactions := true
  lastTransactionAt := none
  failedTransactionCount := 0
  totalTransactionCount := 0
  totalSpend := 0

/-- A card with a $500 daily limit whose stored daily counter has the nested
`{"amount": 480.0, "last_reset": "2000-01-01T00:00:00+00:00"}` shape that
`update_spend` writes. -/
def cardNestedCounter : VirtualCard :=
  { baseCard with
    spendingLimits := [("daily", 500)]
    currentSpend := [("daily", SpendVal.record 480 t2000)] }

/-- A frozen card. -/
def cardFrozen : VirtualCard := { baseCard with status := .frozen }

/-- A category carrying MCC `5812`, as in the Starbucks scenario. -/
def catFood : MerchantCategory where
  code := "food_and_drink"
  name := "Food and Drink"
  mccCodes := ["5812"]
  keywords := ["restaurant"]
  similarWords := []
  excludedWords := []
  typicalAmountRange := none
  commonPaymentMethods := []
  restrictedJurisdictions := []
  isHighRisk := false
  requiresAdditionalVerification := false
  amlRiskLevel := "low"

/-- A category whose keywords match coffee shops but whose excluded words
contain `"bar"`. -/
def catCoffee : MerchantCategory where
  code := "food_and_drink.coffee"
  name := "Coffee Shops"
  mccCodes := []
  keywords := ["starbucks"]
  similarWords := []
  excludedWords := ["bar"]
  typicalAmountRange := none
  commonPaymentMethods := []
  restrictedJurisdictions := []
  isHighRisk := false
  requiresAdditionalVerification := false
  amlRiskLevel := "low"

example : MerchantCategoryService.mapMerchantToCategory (fun _ _ => 100) [catCoffee]
    (some "starbucks") none none none none none = .ok (some catCoffee) := by decide

example : MerchantCategoryService.mapMerchantToCategory (fun _ _ => 100) [catCoffee]
    (some "starbucks bar") none none none none none = .ok none := by decide

/- ## Theorems -/

namespace TransactionValidationService

/-- The aggregate risk score after the rule loop: the initial score plus each
rule's contribution (its weight when it returned an invalid verdict, nothing
when it was valid or raised). -/
theorem runRules_totalRiskScore (rules : List VRule) : ∀ st : AggState,
    (runRules rules st).totalRiskScore
      = st.totalRiskScore + ((rules.map scoreContribution).sum) := by
  induction rules with
  | nil => intro st; simp [runRules]
  | cons r rest ih =>
    intro st
    cases hr : r.outcome with
    | ok v =>
      cases hv : v.valid with
      | true => simp [runRules, hr, hv, ih, scoreContribution]
      | false => simp [runRules, hr, hv, ih, scoreContribution]; omega
    | raises msg => simp [runRules, hr, ih, scoreContribution]

/-- The aggregate risk-factor list after the rule loop: the initial list
followed by the factor lists of the invalid verdicts, in rule order. -/
theorem runRules_riskFactors (rules : List VRule) : ∀ st : AggState,
    (runRules rules st).riskFactors
      = st.riskFactors ++ (rules.map factorContribution).flatten := by
  induction rules with
  | nil => intro st; simp [runRules]
  | cons r rest ih =>
    intro st
    cases hr : r.outcome with
    | ok v =>
      cases hv : v.valid with
      | true => simp [runRules, hr, hv, ih, factorContribution]
      | false => simp [runRules, hr, hv, ih, factorContribution]
    | raises msg => simp [runRules, hr, ih, factorContribution]

/-- The aggregate review flag after the rule loop: the initial flag, or-ed
with each rule's `forcesReview` (raised, or invalid-and-requesting-review). -/
theorem runRules_requiresReview (rules : List VRule) : ∀ st : AggState,
    (runRules rules st).requiresReview
      = (st.requiresReview || rules.any forcesReview) := by
  induction rules with
  | nil => intro st; simp [runRules]
  | cons r rest ih =>
    intro st
    cases hr : r.outcome with
    | ok v =>
      cases hv : v.valid with
      | true => simp [runRules, hr, hv, ih, forcesReview]
      | false => simp [runRules, hr, hv, ih, forcesReview, Bool.or_assoc]
    | raises msg => simp [runRules, hr, ih, forcesReview]

end TransactionValidationService

/-- Whole days below an elapsed span: `n ≤ (d seconds).days ↔ n·86400 ≤ d`. -/
theorem le_tdDays_iff {n : ℤ} (d : ℤ) : n ≤ tdDays d ↔ n * 86400 ≤ d := by
  unfold tdDays secPerDay
  rw [Int.fdiv_eq_ediv _ (by norm_num)]
  exact Int.le_ediv_iff_mul_le (by norm_num)

/-- C2, counterexample: for a daily counter stamped 23:00 (t = 82800) with the
clock at 10:00 the next day (t = 122400), `period_start(daily, now)` — midnight
of the current day, per the spec's definition — differs from the recorded
start, yet `_is_limit_period_expired` returns `False` because fewer than 24
hours have elapsed.  The claimed "stale iff a calendar boundary was crossed"
equivalence fails at this input. -/
theorem claim_C2_counterexample :
    specPeriodStart .daily 122400 ≠ 82800 ∧
    VirtualCardService.isLimitPeriodExpired 82800 122400 .daily = false := by
  decide

/-- C2, amended: the staleness predicate used by limit check and commit is
purely elapsed-duration based — it returns true iff the period is not Total
and at least 1/7/30/365 whole days (86400·k seconds) have elapsed since
`period_started_at`, with no reference to calendar boundaries; for Total it
always returns false. -/
theorem claim_C2_staleness_is_elapsed_duration (t0 now : ℤ) (p : SpendingLimitPeriod) :
    VirtualCardService.isLimitPeriodExpired t0 now p = true ↔
      (p ≠ SpendingLimitPeriod.total ∧ expiryThresholdSecs p ≤ now - t0) := by
  cases p <;>
    simp [VirtualCardService.isLimitPeriodExpired, expiryThresholdSecs, le_tdDays_iff]

/-- C1, counterexample: daily limit 500, counter 480 recorded at 23:00
(t = 82800), transaction of 100 at 10:00 the next day (t = 122400).  The
current time lies in a later calendar day than the recorded period start
(`period_start(daily, now) ≠ period_started_at`), so the claim says the check
treats the counter as 0 and admits the transaction — but only 11 hours have
elapsed, the code's staleness test fails, and the check declines. -/
theorem claim_C1_counterexample :
    specPeriodStart .daily 122400 ≠ 82800 ∧
    VirtualCardService.checkOnePeriod 122400 [("daily", SpendVal.num 480)]
        [("daily", 82800)] 100 ("daily", 500)
      = .error (.decline "Transaction would exceed daily spending limit") := by
  constructor
  · decide
  · rfl

/-- C1, amended: for every configured spending-limit period other than Total,
if the code's elapsed-duration staleness test holds (at least 1/7/30/365 whole
days since `period_started_at` — not mere calendar-boundary crossing), then
the next limit check treats the counter's effective accumulated amount as 0
before adding the transaction amount (it declines exactly when the amount
alone exceeds the limit, whatever spend is recorded), and the next commit
stores `accumulated_amount = amount` with
`period_started_at = _get_period_start(period, now)`.  With a $500 daily
limit and a counter of $480 reset ≥ 24h ago, a $100 transaction succeeds and
the counter becomes $100. -/
theorem claim_C1_reset_then_add (now t0 : ℤ) (pstr : String)
    (p : SpendingLimitPeriod) (limit s amount : ℚ)
    (currentSpend : List (String × SpendVal))
    (lastSpendReset : List (String × ℤ)) (spend : List (String × SpendVal))
    (hp : parsePeriod pstr = some p)
    (hexp : VirtualCardService.isLimitPeriodExpired t0 now p = true)
    (hcs : lookupA currentSpend pstr = some (SpendVal.num s))
    (hlr : lookupA lastSpendReset pstr = some t0)
    (hsp : lookupA spend pstr = some (SpendVal.record s t0)) :
    (VirtualCardService.checkOnePeriod now currentSpend lastSpendReset amount (pstr, limit)
      = if amount > limit
        then .error (.decline ("Transaction would exceed " ++ p.value ++ " spending limit"))
        else .ok ()) ∧
    VirtualCardService.updateOnePeriodSpend now amount spend pstr
      = .ok (setA spend pstr
          (SpendVal.record amount (VirtualCardService.getPeriodStart p now))) := by
  constructor
  · simp [VirtualCardService.checkOnePeriod, hp, hcs, hlr, decimalOfSpendVal, hexp,
      Bind.bind, Except.bind]
  · simp [VirtualCardService.updateOnePeriodSpend, hp, hsp, hexp]

/-- C1, witness: the amended theorem applied to the daily scenario — limit
500, counter 480 recorded at 23:00 (t = 82800), transaction 100 at 23:00 the
next day (t = 169200, 24h later): the check admits the transaction and the
commit stores amount 100 with the new period start (midnight of the current
day, t = 86400). -/
theorem claim_C1_reset_then_add_witness :
    (VirtualCardService.checkOnePeriod 169200 [("daily", SpendVal.num 480)]
        [("daily", 82800)] 100 ("daily", 500) = .ok ()) ∧
    VirtualCardService.updateOnePeriodSpend 169200 100
        [("daily", SpendVal.record 480 82800)] "daily"
      = .ok [("daily", SpendVal.record 100 86400)] := by
  have h := claim_C1_reset_then_add 169200 82800 "daily" .daily 500 480 100
    [("daily", SpendVal.num 480)] [("daily", 82800)]
    [("daily", SpendVal.record 480 82800)] rfl (by decide) rfl rfl rfl
  refine ⟨?_, ?_⟩
  · rw [h.1]; decide
  · rw [h.2]; rfl

/-- C3: evaluation of the code at the failing input.  A card with a $500
daily limit whose stored daily counter has the nested
`{"amount": 480.0, "last_reset": ...}` shape — exactly what `update_spend`
writes back after a successful transaction — makes `validate_transaction`
raise a `TypeError` (`float` spend entry + `Decimal` amount inside
`_validate_spend_against_limit`), a non-`HTTPException` exception that
crosses the authorization boundary, refuting the claim that only the two
local failure classes can come out of it. -/
theorem claim_C3_panic_on_stored_counter :
    VirtualCardService.validateTransaction (fun _ _ => 0) [] 946688400
      cardNestedCounter 100 none none none none none false false false false none
      = .error (.pyError .typeError) := by
  rfl

/-- C9, counterexample: a frozen card is declined immediately, but the
decline reason the code raises is the string `"Card is frozen"`
(`f"Card is {card.status.value}"`), not the bare status value `"frozen"`
that the claim states. -/
theorem claim_C9_counterexample :
    VirtualCardService.validateTransaction (fun _ _ => 0) [] 0 cardFrozen 5
      none none none none none false false false false none
      = .error (.decline "Card is frozen") ∧ "Card is frozen" ≠ "frozen" := by
  exact ⟨rfl, by decide⟩

/-- C9, amended: for every card whose status is not Active, authorization
declines immediately with reason `"Card is " ++ status value` (e.g.
`"Card is frozen"`), independently of every other argument — the same result
for any amount, limits, counters, category table, similarity function or
flags, so no spending-limit check, merchant classification, or risk rule
affects the outcome. -/
theorem claim_C9_inactive_fast_fail (fuzzFn : String → String → ℕ)
    (categories : List MerchantCategory) (now : ℤ) (card : VirtualCard)
    (amount : ℚ)
    (merchantId merchantCategory merchantName merchantDescription
      countryCode : Option String)
    (isOnline isContactless isCashWithdrawal isInternational : Bool)
    (paymentMethod : Option String)
    (h : card.status ≠ CardStatus.active) :
    VirtualCardService.validateTransaction fuzzFn categories now card amount
      merchantId merchantCategory merchantName merchantDescription countryCode
      isOnline isContactless isCashWithdrawal isInternational paymentMethod
      = .error (.decline ("Card is " ++ card.status.value)) := by
  simp [VirtualCardService.validateTransaction, h]

/-- C9, witness: the amended theorem applied to a concrete frozen card. -/
theorem claim_C9_inactive_fast_fail_witness :
    VirtualCardService.validateTransaction (fun _ _ => 0) [] 0 cardFrozen 5
      none none none none none false false false false none
      = .error (.decline ("Card is " ++ cardFrozen.status.value)) := by
  exact claim_C9_inactive_fast_fail (fun _ _ => 0) [] 0 cardFrozen 5
    none none none none none false false false false none (by decide)

/-- C10: when `update_spend` is invoked with `success = False`, the returned
card differs from the input card in exactly two fields —
`failed_transaction_count` is incremented by 1 and `last_transaction_at` is
set to the current time; every spend counter (`current_spend`,
`category_current_spend`, `subcategory_current_spend`, `total_spend`,
`total_transaction_count`, and the per-category/subcategory transaction
counts) keeps its prior value. -/
theorem claim_C10_failed_update_frame (now : ℤ) (card : VirtualCard)
    (amount : ℚ) (merchantCategory : Option String) :
    VirtualCardService.updateSpend now card amount merchantCategory false
      = .ok { card with
          failedTransactionCount := card.failedTransactionCount + 1
          lastTransactionAt := some now } := by
  simp [VirtualCardService.updateSpend]

/-- C4, counterexample: a single rule whose `validation_fn` raises forces
`requires_review` but contributes **0**, not its full risk weight (35), to
the aggregate `risk_score` — the `except` handler never adds
`rule.risk_score`. -/
theorem claim_C4_counterexample :
    (TransactionValidationService.validateTransaction
      [⟨"behavior_pattern", 35, .raises "database error"⟩]).riskScore = 0 ∧
    (0 : ℤ) ≠ 35 ∧
    (TransactionValidationService.validateTransaction
      [⟨"behavior_pattern", 35, .raises "database error"⟩]).requiresReview = true := by
  decide

/-- C4, amended: if any single rule's evaluate function raises an internal
error during risk aggregation, the remaining rules still run (the aggregate
risk score and risk factors are exactly those of the run without the failing
rule) and the failing rule forces `requires_review` to be true — but it
contributes 0, not its full risk weight, to the aggregate `risk_score`. -/
theorem claim_C4_rule_error_isolation (pre post : List TransactionValidationService.VRule)
    (name msg : String) (w : ℤ) :
    (TransactionValidationService.validateTransaction
        (pre ++ ⟨name, w, .raises msg⟩ :: post)).riskScore
      = (TransactionValidationService.validateTransaction (pre ++ post)).riskScore ∧
    (TransactionValidationService.validateTransaction
        (pre ++ ⟨name, w, .raises msg⟩ :: post)).riskFactors
      = (TransactionValidationService.validateTransaction (pre ++ post)).riskFactors ∧
    (TransactionValidationService.validateTransaction
        (pre ++ ⟨name, w, .raises msg⟩ :: post)).requiresReview = true := by
  refine ⟨?_, ?_, ?_⟩ <;>
    simp [TransactionValidationService.validateTransaction,
      TransactionValidationService.runRules_totalRiskScore,
      TransactionValidationService.runRules_riskFactors,
      TransactionValidationService.runRules_requiresReview,
      TransactionValidationService.scoreContribution,
      TransactionValidationService.factorContribution,
      TransactionValidationService.forcesReview]

/-- C5, counterexample: two failing verdicts with weights 40 and 30, neither
requesting review, sum to `risk_score = 70`, yet the returned
`requires_review` is `false` — the code never forces review from the score
threshold (the score only drives the `valid` flag). -/
theorem claim_C5_counterexample :
    (TransactionValidationService.validateTransaction
      [⟨"spending_limit", 40, .ok ⟨false, ["daily_limit_exceeded"], false⟩⟩,
       ⟨"merchant_category", 30, .ok ⟨false, ["category_not_allowed"], false⟩⟩]).riskScore
      = 70 ∧
    (TransactionValidationService.validateTransaction
      [⟨"spending_limit", 40, .ok ⟨false, ["daily_limit_exceeded"], false⟩⟩,
       ⟨"merchant_category", 30, .ok ⟨false, ["category_not_allowed"], false⟩⟩]).requiresReview
      = false := by
  decide

/-- C5, amended: the aggregate `requires_review` flag is true exactly when
some rule raised or some **invalid** verdict requested review; a summed
`risk_score ≥ 70` does not force it (the threshold only enters the returned
`valid` flag, which is `risk_score < 70 AND NOT requires_review`), and a
valid verdict requesting review is ignored. -/
theorem claim_C5_requires_review_source (rules : List TransactionValidationService.VRule) :
    (TransactionValidationService.validateTransaction rules).requiresReview
      = rules.any TransactionValidationService.forcesReview ∧
    (TransactionValidationService.validateTransaction rules).valid
      = (decide ((TransactionValidationService.validateTransaction rules).riskScore < 70)
          && !(rules.any TransactionValidationService.forcesReview)) := by
  refine ⟨?_, ?_⟩ <;>
    simp [TransactionValidationService.validateTransaction,
      TransactionValidationService.runRules_requiresReview]

/-- C6, counterexample: two failing verdicts that each report the factor
`"x"` yield the aggregate list `["x", "x"]` — the factor appears twice; the
aggregation never de-duplicates. -/
theorem claim_C6_counterexample :
    (TransactionValidationService.validateTransaction
      [⟨"a", 10, .ok ⟨false, ["x"], false⟩⟩,
       ⟨"b", 20, .ok ⟨false, ["x"], false⟩⟩]).riskFactors = ["x", "x"] ∧
    ¬ (TransactionValidationService.validateTransaction
      [⟨"a", 10, .ok ⟨false, ["x"], false⟩⟩,
       ⟨"b", 20, .ok ⟨false, ["x"], false⟩⟩]).riskFactors.Nodup := by
  decide

/-- C6, amended: the aggregated `risk_factors` list is the concatenation, in
rule order, of the risk-factor lists of the failing verdicts (rules that
passed or raised contribute nothing); duplicates are retained, so a factor
reported by two rules appears twice. -/
theorem claim_C6_risk_factors_concatenation (rules : List TransactionValidationService.VRule) :
    (TransactionValidationService.validateTransaction rules).riskFactors
      = (rules.map TransactionValidationService.factorContribution).flatten := by
  simp [TransactionValidationService.validateTransaction,
    TransactionValidationService.runRules_riskFactors]

namespace MerchantCategoryService

/-- A category with an excluded word occurring in the search text is
disqualified outright: its composite score is discarded (`continue`). -/
theorem scoreCategory_none_of_excluded (fuzzFn : String → String → ℕ)
    (st : String) (amt : Option ℚ) (pm cc : Option String)
    (c : MerchantCategory)
    (h : c.excludedWords.any (fun w => containsSub st w) = true) :
    scoreCategory fuzzFn st amt pm cc c = none := by
  simp [scoreCategory, h]

/-- Any category the best-match fold ends on was either already the incoming
best match or received a non-discarded score. -/
theorem scoreLoop_best_scored (fuzzFn : String → String → ℕ) (st : String)
    (amt : Option ℚ) (pm cc : Option String) :
    ∀ (cats : List MerchantCategory) (acc : Option MerchantCategory × ℚ)
      (n : MerchantCategory),
      (scoreLoop fuzzFn st amt pm cc cats acc).1 = some n →
      acc.1 = some n ∨ (scoreCategory fuzzFn st amt pm cc n).isSome = true
  | [], _, _, h => Or.inl h
  | c :: rest, acc, n, h => by
    simp only [scoreLoop] at h
    cases hsc : scoreCategory fuzzFn st amt pm cc c with
    | none =>
      rw [hsc] at h
      exact scoreLoop_best_scored fuzzFn st amt pm cc rest acc n h
    | some score =>
      rw [hsc] at h
      rcases scoreLoop_best_scored fuzzFn st amt pm cc rest _ n h with h' | h'
      · by_cases hgt : score > acc.2
        · rw [if_pos hgt] at h'
          simp only [Option.some.injEq] at h'
          subst h'
          exact Or.inr (by rw [hsc]; rfl)
        · rw [if_neg hgt] at h'
          exact Or.inl h'
      · exact Or.inr h'

end MerchantCategoryService

/-- C7: exclusion veto.  For every merchant input on which the MCC lookup
does not short-circuit (no MCC supplied, or no category carries it), any
category returned by `map_merchant_to_category` has none of its
`excluded_words` contained in the normalized search text: a category whose
excluded word occurs in the text is never returned, even if its
keyword-similarity score (under any similarity function whatsoever) would be
the highest of all. -/
theorem claim_C7_exclusion_veto (fuzzFn : String → String → ℕ)
    (categories : List MerchantCategory)
    (merchantName merchantDescription mcc : Option String)
    (transactionAmount : Option ℚ) (paymentMethod countryCode : Option String)
    (searchText : String) (n : MerchantCategory)
    (hmcc : truthyS mcc = false ∨
      MerchantCategoryService.getCategoryByMcc categories (mcc.getD "") = none)
    (hst : MerchantCategoryService.searchTextOf merchantName merchantDescription
      = .ok searchText)
    (hres : MerchantCategoryService.mapMerchantToCategory fuzzFn categories
      merchantName merchantDescription mcc transactionAmount paymentMethod
      countryCode = .ok (some n)) :
    n.excludedWords.any (fun w => MerchantCategoryService.containsSub searchText w)
      = false := by
  have hfall : (MerchantCategoryService.scoreLoop fuzzFn searchText
      transactionAmount paymentMethod countryCode categories (none, 0)).2 ≥ 40 ∧
      (MerchantCategoryService.scoreLoop fuzzFn searchText transactionAmount
        paymentMethod countryCode categories (none, 0)).1 = some n := by
    cases htr : truthyS mcc with
    | false =>
      simp only [MerchantCategoryService.mapMerchantToCategory, htr,
        Bool.false_eq_true, if_false, hst, Except.bind, Bind.bind,
        Except.ok.injEq] at hres
      by_cases hge : (MerchantCategoryService.scoreLoop fuzzFn searchText
          transactionAmount paymentMethod countryCode categories (none, 0)).2 ≥ 40
      · rw [if_pos hge] at hres; exact ⟨hge, hres⟩
      · rw [if_neg hge] at hres; cases hres
    | true =>
      have hnone : MerchantCategoryService.getCategoryByMcc categories (mcc.getD "")
          = none := by
        rcases hmcc with hmcc | hmcc
        · rw [htr] at hmcc; cases hmcc
        · exact hmcc
      simp only [MerchantCategoryService.mapMerchantToCategory, htr, if_true,
        hnone, hst, Except.bind, Bind.bind, Except.ok.injEq] at hres
      by_cases hge : (MerchantCategoryService.scoreLoop fuzzFn searchText
          transactionAmount paymentMethod countryCode categories (none, 0)).2 ≥ 40
      · rw [if_pos hge] at hres; exact ⟨hge, hres⟩
      · rw [if_neg hge] at hres; cases hres
  rcases MerchantCategoryService.scoreLoop_best_scored fuzzFn searchText
      transactionAmount paymentMethod countryCode categories (none, 0) n hfall.2
    with h | h
  · cases h
  · cases hexcl : n.excludedWords.any
      (fun w => MerchantCategoryService.containsSub searchText w) with
    | false => rfl
    | true =>
      rw [MerchantCategoryService.scoreCategory_none_of_excluded fuzzFn searchText
        transactionAmount paymentMethod countryCode n hexcl] at h
      cases h

/-- C7, witness: the veto theorem applied to a concrete run — the coffee-shop
category (excluded word `"bar"`) is returned for the text `"starbucks"` under
a maximal similarity function, and indeed none of its excluded words occurs
in that search text. -/
theorem claim_C7_exclusion_veto_witness :
    catCoffee.excludedWords.any
      (fun w => MerchantCategoryService.containsSub "starbucks" w) = false := by
  exact claim_C7_exclusion_veto (fun _ _ => 100) [catCoffee] (some "starbucks")
    none none none none none "starbucks" catCoffee (Or.inl (by decide))
    (by decide) (by decide)

/-- C8: MCC short-circuit.  If an MCC is supplied (non-empty) and some
category's `mcc_codes` contains it, `map_merchant_to_category` returns the
first such category immediately, for every similarity function, merchant
text, amount, payment method and country — i.e. independently of all fuzzy
scoring signals. -/
theorem claim_C8_mcc_short_circuit (fuzzFn : String → String → ℕ)
    (categories : List MerchantCategory)
    (merchantName merchantDescription mcc : Option String)
    (transactionAmount : Option ℚ) (paymentMethod countryCode : Option String)
    (n : MerchantCategory)
    (hmcc : truthyS mcc = true)
    (hfind : MerchantCategoryService.getCategoryByMcc categories (mcc.getD "")
      = some n) :
    MerchantCategoryService.mapMerchantToCategory fuzzFn categories merchantName
      merchantDescription mcc transactionAmount paymentMethod countryCode
      = .ok (some n) := by
  simp [MerchantCategoryService.mapMerchantToCategory, hmcc, hfind]

/-- C8, witness: merchant `"STARBUCKS #123"` with MCC `"5812"` carried by the
`food_and_drink` fixture is classified as `food_and_drink` even though the
category list starts with a coffee category whose keywords would match the
text (the similarity function is irrelevant: here it is constantly 0). -/
theorem claim_C8_mcc_short_circuit_witness :
    MerchantCategoryService.mapMerchantToCategory (fun _ _ => 0)
      [catCoffee, catFood] (some "STARBUCKS #123") none (some "5812") (some 4)
      none none = .ok (some catFood) := by
  exact claim_C8_mcc_short_circuit (fun _ _ => 0) [catCoffee, catFood]
    (some "STARBUCKS #123") none (some "5812") (some 4) none none catFood
    (by decide) (by decide)
